import Mathlib

/-!
Verification development for the Assetze GitHub-token verification workflow.

Shallow embedding of:
  * `tools/github_verifier.py` — `verify_github_token_api`
  * `verify.py` — `verify_github_token_tool`
  * `graph_nodes.py` — `call_github_verifier_node`, `analyze_result_node`,
    `suggest_remediation_node`
  * `main_workflow.py` — `GithubTokenVerificationWorkflow` (`_decide_next_step`, `run`)
  * `app.py` — `analyze_verification_result`

External effects (the HTTP request to the GitHub API and the LLM chat
completions) are modelled as explicit outcome values supplied to the pure
Lean functions; Python exceptions raised by those effects are constructors
of the outcome types, so a handler branch of the Python code corresponds to
a `match` arm here.  Totality of the Lean functions models the absence of
escaping exceptions.
-/

namespace Assetze

/-- Whether `sep` is a prefix of `l`, by structural recursion (kernel-reducible,
unlike `String.startsWith`). -/
def charsPrefix : List Char → List Char → Bool
  | [], _ => true
  | _ :: _, [] => false
  | a :: as, b :: bs => a == b && charsPrefix as bs

/-- Splitting a character list on a non-empty separator, Python `str.split(sep)`
semantics.  `fuel` makes the recursion structural; it is called with more fuel
than the haystack length, so the fuel never runs out. -/
def pySplitAux (sep : List Char) : Nat → List Char → List (List Char)
  | 0, l => [l]
  | _ + 1, [] => [[]]
  | fuel + 1, c :: rest =>
      if charsPrefix sep (c :: rest) then
        [] :: pySplitAux sep fuel ((c :: rest).drop sep.length)
      else
        match pySplitAux sep fuel rest with
        | [] => [[c]]
        | h :: t => (c :: h) :: t

/-- Python `s.split(sep)` for a non-empty `sep` (the sources only split on
the two-character separator ", ").  `"".split(sep) == ['']` holds. -/
def pySplit (s sep : String) : List String :=
  if sep.data = [] then [s]
  else (pySplitAux sep.data (s.data.length + 1) s.data).map (fun cs => String.mk cs)

/-- Python `sub in hay` on strings: the empty pattern always occurs, otherwise
splitting produces more than one piece iff `sub` occurs in `hay`. -/
def pyContains (hay sub : String) : Bool :=
  sub.data = [] || (pySplit hay sub).length != 1

/-- ASCII whitespace as stripped by Python `str.strip()`. -/
def pyIsSpace (c : Char) : Bool :=
  c == ' ' || c == '\t' || c == '\n' || c == '\r' || c == '\x0b' || c == '\x0c'

/-- Drop leading whitespace characters. -/
def dropLeadingSpace : List Char → List Char
  | [] => []
  | c :: rest => if pyIsSpace c then dropLeadingSpace rest else c :: rest

/-- Python `s.strip()`: remove leading and trailing whitespace. -/
def pyStrip (s : String) : String :=
  String.mk ((dropLeadingSpace (dropLeadingSpace s.data).reverse).reverse)

/-- Python `s.lower()` restricted to ASCII letters (the matched patterns are
ASCII). -/
def pyLower (s : String) : String :=
  String.mk (s.data.map (fun c => if 'A' ≤ c && c ≤ 'Z' then Char.ofNat (c.toNat + 32) else c))

/-- Python `s[:n]`. -/
def pyTake (s : String) (n : Nat) : String :=
  String.mk (s.data.take n)

/-- Outcome of parsing the HTTP response body as JSON, as observed through
`response_data.get('message', default)` in the Python sources.
`parsed (some m)` — body parsed, key `message` present with value `m`;
`parsed none` — body parsed, no `message` key;
`unparseable t` — `response.json()` raised `json.JSONDecodeError` and the raw
text of the body is `t`. -/
inductive BodyParse where
  | parsed (message : Option String)
  | unparseable (text : String)
  deriving Repr, DecidableEq

/-- `response_data.get('message', default)` after the inner try/except of
`verify_github_token_api`: on a decode error the code substitutes
`{"message": response.text[:200] + "..."}` (or a fixed string for an empty
body), so the `message` key is always present in that case. -/
def responseDataMessage : BodyParse → String → String
  | .parsed (some m), _ => m
  | .parsed none, d => d
  | .unparseable t, _ =>
      if t = "" then "No JSON response body" else pyTake t 200 ++ "..."

/-- The JSON object built by both Python verifiers, decoded by
`call_github_verifier_node` via `json.loads`.  `scopes = none` models a JSON
object with no `scopes` key (the verifier-node guard result omits it). -/
structure VerificationResult where
  valid : Bool
  scopes : Option (List String)
  message : String
  status_code : Int
  deriving Repr, DecidableEq

/-- Outcome of `requests.get(api_url, headers=headers, timeout=10)` inside
`verify_github_token_api`, one constructor per Python control path:
a response object (with its status, `X-OAuth-Scopes` header and body),
`requests.exceptions.Timeout`, any other `requests.exceptions.RequestException`,
or any other `Exception`. -/
inductive HttpOutcome where
  | response (status : Nat) (oauthScopes : Option String) (body : BodyParse)
  | timeout
  | requestError (detail : String)
  | otherError (detail : String)
  deriving Repr, DecidableEq

/-- `scopes = response.headers.get('X-OAuth-Scopes', '').split(', ')` then
`[s.strip() for s in scopes if s.strip()]` in `tools/github_verifier.py`. -/
def parseScopesApi (header : Option String) : List String :=
  ((pySplit (header.getD "") ", ").map pyStrip).filter (fun s => s != "")

/-- The 403-branch message mangling of `verify_github_token_api`. -/
def forbiddenMessage (body : BodyParse) : String :=
  let message := responseDataMessage body "Access Forbidden."
  if pyContains (pyLower message) "rate limit" then
    "Rate limit exceeded or forbidden: " ++ message
  else if pyContains (pyLower message) "resource not accessible by integration" ||
      pyContains (pyLower message) "requires authentication" then
    "Token forbidden or insufficient permissions: " ++ message
  else message

/-- `verify_github_token_api` of `tools/github_verifier.py`, as a function of
the outcome of its single HTTP request. -/
def verify_github_token_api : HttpOutcome → VerificationResult
  | .response status oauthScopes body =>
      if status = 200 then
        { valid := true
          scopes := some (parseScopesApi oauthScopes)
          message := "Token is valid."
          status_code := (status : Int) }
      else if status = 401 then
        { valid := false
          scopes := some []
          message := "Token is invalid or expired: " ++
            responseDataMessage body "Bad credentials"
          status_code := (status : Int) }
      else if status = 403 then
        { valid := false
          scopes := some []
          message := forbiddenMessage body
          status_code := (status : Int) }
      else
        { valid := false
          scopes := some []
          message := "Unexpected API response (Status: " ++ toString status ++ "): " ++
            responseDataMessage body "No message"
          status_code := (status : Int) }
  | .timeout =>
      { valid := false
        scopes := some []
        message := "Request timed out when connecting to GitHub API."
        status_code := -1 }
  | .requestError detail =>
      { valid := false
        scopes := some []
        message := "Network or API request error: " ++ detail
        status_code := -2 }
  | .otherError detail =>
      { valid := false
        scopes := some []
        message := "An unexpected error occurred during tool execution: " ++ detail
        status_code := -99 }

/-- Outcome of `requests.get(api_url, headers=headers)` plus the unconditional
`response.json()` in `verify.py`.  `requests.exceptions.Timeout` is a subclass
of `RequestException`, and `verify.py` has no dedicated `Timeout` handler, so a
timeout is a `requestError` here and lands in the `-1` branch. -/
inductive ToolHttpOutcome where
  | response (status : Nat) (oauthScopes : Option String) (bodyMessage : Option String)
  | requestError (detail : String)
  | decodeError
  | otherError (detail : String)
  deriving Repr, DecidableEq

/-- `scopes = response.headers.get('X-OAuth-Scopes', '').split(', ')` then
`[s for s in scopes if s]` in `verify.py` (no trimming). -/
def parseScopesTool (header : Option String) : List String :=
  (pySplit (header.getD "") ", ").filter (fun s => s != "")

/-- `verify_github_token_tool` of `verify.py`, as a function of the outcome of
its single HTTP request. -/
def verify_github_token_tool : ToolHttpOutcome → VerificationResult
  | .response status oauthScopes bodyMessage =>
      if status = 200 then
        { valid := true
          scopes := some (parseScopesTool oauthScopes)
          message := "Token is valid."
          status_code := (status : Int) }
      else if status = 401 then
        { valid := false
          scopes := some []
          message := "Token is invalid or expired: " ++ bodyMessage.getD "Unknown error"
          status_code := (status : Int) }
      else if status = 403 then
        { valid := false
          scopes := some []
          message := "Token access forbidden (e.g., rate limited or token permissions): " ++
            bodyMessage.getD "Unknown error"
          status_code := (status : Int) }
      else
        { valid := false
          scopes := some []
          message := "Unexpected API response (Status: " ++ toString status ++ "): " ++
            bodyMessage.getD "No message"
          status_code := (status : Int) }
  | .requestError detail =>
      { valid := false
        scopes := some []
        message := "Network or API request error: " ++ detail
        status_code := -1 }
  | .decodeError =>
      { valid := false
        scopes := some []
        message := "JSON Decode Error: Unexpected response format from GitHub API."
        status_code := -3 }
  | .otherError detail =>
      { valid := false
        scopes := some []
        message := "An unexpected error occurred: " ++ detail
        status_code := -4 }

/-- Outcome of one `chain.invoke({"input": ""}).content` LLM delegate call:
either the generated text, or the exception it raised. -/
inductive LLMOutcome where
  | success (text : String)
  | failure (error : String)
  deriving Repr, DecidableEq

/-- `GithubTokenVerificationState` of `workflow_state.py`. -/
structure GithubTokenVerificationState where
  token : String
  verification_result : Option VerificationResult
  analysis_message : Option String
  remediation_suggestions : Option String
  deriving Repr, DecidableEq

/-- The external world a single workflow run interacts with: the outcome of
the GitHub HTTP request (if it is made), an exception raised by the tool
invocation machinery itself (caught by the `except` of
`call_github_verifier_node` into the `-100` result), and the outcomes of the
two LLM delegate calls. -/
structure WorkflowEnv where
  httpOutcome : HttpOutcome
  verifierToolError : Option String
  analysisLLM : LLMOutcome
  remediationLLM : LLMOutcome
  deriving Repr, DecidableEq

/-- `call_github_verifier_node` of `graph_nodes.py`.  An empty token (Python
falsy `if not token`) is answered with the fixed guard dict — note it has no
`scopes` key — and no API call; otherwise the tool runs, and any exception of
the tool invocation is absorbed into the `-100` result. -/
def call_github_verifier_node (env : WorkflowEnv)
    (state : GithubTokenVerificationState) : GithubTokenVerificationState :=
  if state.token = "" then
    let r : VerificationResult :=
      { valid := false, scopes := none, message := "No token provided.", status_code := 0 }
    { state with verification_result := some r }
  else
    match env.verifierToolError with
    | some e =>
        let r : VerificationResult :=
          { valid := false, scopes := some [], message := "Error during API call: " ++ e, status_code := -100 }
        { state with verification_result := some r }
    | none =>
        { state with verification_result := some (verify_github_token_api env.httpOutcome) }

/-- `analyze_result_node` of `graph_nodes.py`: the delegate is always invoked;
its failure is absorbed into an error-embedding `analysis_message`. -/
def analyze_result_node (llm : LLMOutcome)
    (state : GithubTokenVerificationState) : GithubTokenVerificationState :=
  match llm with
  | .success text => { state with analysis_message := some text }
  | .failure e =>
      { state with analysis_message := some ("Error during analysis: " ++ e) }

/-- `state.get("verification_result", {}).get("valid")` coerced to a truth
value, as used by both `_decide_next_step` and `suggest_remediation_node`:
a missing result or a missing key is falsy. -/
def stateValid (state : GithubTokenVerificationState) : Bool :=
  (state.verification_result.map (fun r => r.valid)).getD false

/-- `suggest_remediation_node` of `graph_nodes.py`: short-circuits to the
fixed string when the stored result is valid, otherwise invokes the delegate
and absorbs its failure into an error-embedding string. -/
def suggest_remediation_node (llm : LLMOutcome)
    (state : GithubTokenVerificationState) : GithubTokenVerificationState :=
  if stateValid state then
    { state with remediation_suggestions := some "Token is valid. No remediation needed." }
  else
    match llm with
    | .success text => { state with remediation_suggestions := some text }
    | .failure e =>
        { state with remediation_suggestions := some ("Error generating suggestions: " ++ e) }

/-- `GithubTokenVerificationWorkflow._decide_next_step` of `main_workflow.py`. -/
def decide_next_step (state : GithubTokenVerificationState) : String :=
  if stateValid state then "end" else "remediate"

/-- A run of the compiled graph together with which external calls it made. -/
structure RunTrace where
  finalState : GithubTokenVerificationState
  githubApiCalled : Bool
  analysisDelegateInvoked : Bool
  remediationDelegateInvoked : Bool
  deriving Repr, DecidableEq

/-- `GithubTokenVerificationWorkflow.run` of `main_workflow.py`: builds the
initial state, then executes the graph
`verify_token -> analyze_result -> (_decide_next_step ? suggest_remediation : END)`.
The trace records whether the GitHub API request was issued (the verifier
node's empty-token guard is the only gate) and which LLM delegates were
invoked (`analyze_result_node` always invokes its delegate;
`suggest_remediation_node` invokes its delegate only past its valid
short-circuit). -/
def run (env : WorkflowEnv) (token : String) : RunTrace :=
  let initial : GithubTokenVerificationState :=
    { token := token, verification_result := none, analysis_message := none,
      remediation_suggestions := none }
  let afterVerify := call_github_verifier_node env initial
  let afterAnalyze := analyze_result_node env.analysisLLM afterVerify
  if decide_next_step afterAnalyze = "remediate" then
    { finalState := suggest_remediation_node env.remediationLLM afterAnalyze
      githubApiCalled := !(token == "")
      analysisDelegateInvoked := true
      remediationDelegateInvoked := !stateValid afterAnalyze }
  else
    { finalState := afterAnalyze
      githubApiCalled := !(token == "")
      analysisDelegateInvoked := true
      remediationDelegateInvoked := false }

/-- The `verification_result` that `call_github_verifier_node` stores for a
given token, split out for reuse in statements. -/
def verifierOutput (env : WorkflowEnv) (token : String) : VerificationResult :=
  if token = "" then
    { valid := false, scopes := none, message := "No token provided.",
      status_code := 0 }
  else
    match env.verifierToolError with
    | some e =>
        { valid := false, scopes := some []
          message := "Error during API call: " ++ e, status_code := -100 }
    | none => verify_github_token_api env.httpOutcome

/-- `WorkflowState` of `app.py` (all fields non-optional there; the initial
endpoint state uses empty placeholders). -/
structure AppWorkflowState where
  token : String
  verification_result : Option VerificationResult
  analysis_message : String
  remediation_suggestions : String
  deriving Repr, DecidableEq

/-- `analyze_verification_result` of `app.py`.  Unlike `analyze_result_node`,
this node has no try/except around `chain.invoke(...)`: a delegate failure
propagates out of the node, modelled as `Except.error`. -/
def analyze_verification_result (llm : LLMOutcome)
    (state : AppWorkflowState) : Except String AppWorkflowState :=
  match llm with
  | .success text => .ok { state with analysis_message := text }
  | .failure e => .error e

/-! ### Helper lemmas -/

/-- The verifier node stores exactly `verifierOutput` and leaves `token`
unchanged. -/
theorem call_github_verifier_node_spec (env : WorkflowEnv)
    (s : GithubTokenVerificationState) :
    (call_github_verifier_node env s).verification_result =
      some (verifierOutput env s.token) ∧
    (call_github_verifier_node env s).token = s.token ∧
    (call_github_verifier_node env s).analysis_message = s.analysis_message ∧
    (call_github_verifier_node env s).remediation_suggestions = s.remediation_suggestions := by
  unfold call_github_verifier_node verifierOutput
  split
  · exact ⟨rfl, rfl, rfl, rfl⟩
  · cases env.verifierToolError <;> exact ⟨rfl, rfl, rfl, rfl⟩

/-- The analyzer node changes only `analysis_message`. -/
theorem analyze_result_node_frame (llm : LLMOutcome)
    (s : GithubTokenVerificationState) :
    (analyze_result_node llm s).token = s.token ∧
    (analyze_result_node llm s).verification_result = s.verification_result ∧
    (analyze_result_node llm s).remediation_suggestions = s.remediation_suggestions := by
  cases llm <;> exact ⟨rfl, rfl, rfl⟩

/-- The remediation node changes only `remediation_suggestions`. -/
theorem suggest_remediation_node_frame (llm : LLMOutcome)
    (s : GithubTokenVerificationState) :
    (suggest_remediation_node llm s).token = s.token ∧
    (suggest_remediation_node llm s).verification_result = s.verification_result ∧
    (suggest_remediation_node llm s).analysis_message = s.analysis_message := by
  unfold suggest_remediation_node
  split
  · exact ⟨rfl, rfl, rfl⟩
  · cases llm <;> exact ⟨rfl, rfl, rfl⟩

/-- Full behaviour of one `run`: the final state's `token` and
`verification_result`, which external calls were made, and how
`remediation_suggestions` is produced from the routing decision. -/
theorem run_spec (env : WorkflowEnv) (token : String) :
    (run env token).finalState.token = token ∧
    (run env token).finalState.verification_result = some (verifierOutput env token) ∧
    (run env token).githubApiCalled = !(token == "") ∧
    (run env token).analysisDelegateInvoked = true ∧
    (run env token).remediationDelegateInvoked = !(verifierOutput env token).valid ∧
    (run env token).finalState.remediation_suggestions =
      (if (verifierOutput env token).valid then none
       else some (match env.remediationLLM with
         | LLMOutcome.success text => text
         | LLMOutcome.failure e => "Error generating suggestions: " ++ e)) := by
  obtain ⟨ho, vte, al, rl⟩ := env
  by_cases ht : token = ""
  · subst ht
    cases al <;> cases rl <;>
      simp [run, call_github_verifier_node, analyze_result_node, suggest_remediation_node,
            decide_next_step, stateValid, verifierOutput]
  · cases vte with
    | some e =>
        cases al <;> cases rl <;>
          simp [run, call_github_verifier_node, analyze_result_node, suggest_remediation_node,
                decide_next_step, stateValid, verifierOutput, ht]
    | none =>
        cases hv : (verify_github_token_api ho).valid <;>
          cases al <;> cases rl <;>
            simp [run, call_github_verifier_node, analyze_result_node, suggest_remediation_node,
                  decide_next_step, stateValid, verifierOutput, ht, hv]

/-! ### Claims -/

/-- C1: `verify_github_token_api` absorbs every outcome of its HTTP request
into a returned `VerificationResult` — totality of this function over
`HttpOutcome`, whose constructors cover the 200/401/403/other-status responses
and each exception class, models that no exception escapes its boundary.  The
result is `valid = true` exactly on an HTTP 200 response (so `valid = false` on
every non-200 outcome), and each failure mode carries its distinguishing
`status_code`: the HTTP status itself on a response, and the pairwise-distinct
sentinels -1 (timeout), -2 (other request/network error), -99 (any other
exception), all disjoint from the HTTP status space. -/
theorem verify_api_absorbs_all_outcomes (o : HttpOutcome) :
    ((verify_github_token_api o).valid = true ↔
      ∃ sc b, o = HttpOutcome.response 200 sc b) ∧
    (verify_github_token_api o).status_code =
      (match o with
        | HttpOutcome.response s _ _ => (s : Int)
        | HttpOutcome.timeout => -1
        | HttpOutcome.requestError _ => -2
        | HttpOutcome.otherError _ => -99) := by
  cases o with
  | response s sc b =>
      refine ⟨⟨fun hv => ?_, fun hex => ?_⟩, ?_⟩
      · by_cases h : s = 200
        · exact ⟨sc, b, by rw [h]⟩
        · exfalso
          simp only [verify_github_token_api] at hv
          rw [if_neg h] at hv
          split_ifs at hv
      · obtain ⟨sc2, b2, heq⟩ := hex
        injection heq with h1 _ _
        subst h1
        simp [verify_github_token_api]
      · simp only [verify_github_token_api]
        split_ifs <;> rfl
  | timeout => exact ⟨by simp [verify_github_token_api], rfl⟩
  | requestError d => exact ⟨by simp [verify_github_token_api], rfl⟩
  | otherError d => exact ⟨by simp [verify_github_token_api], rfl⟩

/-- C1 witness: the classification at the concrete timeout outcome. -/
theorem verify_api_absorbs_all_outcomes_witness :
    (verify_github_token_api HttpOutcome.timeout).status_code = -1 :=
  (verify_api_absorbs_all_outcomes HttpOutcome.timeout).2

/-- C7: a timeout of the verification request yields `status_code = -1`,
`valid = false`, empty `scopes`, and a message indicating the timeout.  In
`tools/github_verifier.py` the dedicated `Timeout` handler produces the fixed
timed-out message with sentinel -1; in `verify.py` a timeout is caught by the
`RequestException` handler, which also uses sentinel -1 and embeds the
exception's own description. -/
theorem timeout_yields_sentinel_minus_one :
    verify_github_token_api HttpOutcome.timeout =
      { valid := false, scopes := some [],
        message := "Request timed out when connecting to GitHub API.",
        status_code := -1 } ∧
    ∀ d, verify_github_token_tool (ToolHttpOutcome.requestError d) =
      { valid := false, scopes := some [],
        message := "Network or API request error: " ++ d,
        status_code := -1 } :=
  ⟨rfl, fun _ => rfl⟩

/-- C9: every result of either verifier satisfies `valid = true` iff
`status_code = 200`, and whenever `valid = false` the `scopes` field is the
empty list — so `scopes` can be non-empty only on the 200 branch. -/
theorem verify_valid_iff_200_and_scopes_empty (o : HttpOutcome) (t : ToolHttpOutcome) :
    ((verify_github_token_api o).valid = true ↔
      (verify_github_token_api o).status_code = 200) ∧
    ((verify_github_token_api o).valid = false →
      (verify_github_token_api o).scopes = some []) ∧
    ((verify_github_token_tool t).valid = true ↔
      (verify_github_token_tool t).status_code = 200) ∧
    ((verify_github_token_tool t).valid = false →
      (verify_github_token_tool t).scopes = some []) := by
  refine ⟨?_, ?_, ?_, ?_⟩
  · cases o with
    | response s sc b =>
        simp only [verify_github_token_api]
        split_ifs with h1 h2 h3
        · subst h1; simp
        · subst h2; simp
        · subst h3; simp
        · simp only [Bool.false_eq_true, false_iff]
          exact fun hc => h1 (by exact_mod_cast hc)
    | timeout => simp [verify_github_token_api]
    | requestError d => simp [verify_github_token_api]
    | otherError d => simp [verify_github_token_api]
  · cases o with
    | response s sc b =>
        simp only [verify_github_token_api]
        split_ifs <;> simp
    | timeout => intro _; rfl
    | requestError d => intro _; rfl
    | otherError d => intro _; rfl
  · cases t with
    | response s sc b =>
        simp only [verify_github_token_tool]
        split_ifs with h1 h2 h3
        · subst h1; simp
        · subst h2; simp
        · subst h3; simp
        · simp only [Bool.false_eq_true, false_iff]
          exact fun hc => h1 (by exact_mod_cast hc)
    | requestError d => simp [verify_github_token_tool]
    | decodeError => simp [verify_github_token_tool]
    | otherError d => simp [verify_github_token_tool]
  · cases t with
    | response s sc b =>
        simp only [verify_github_token_tool]
        split_ifs <;> simp
    | requestError d => intro _; rfl
    | decodeError => intro _; rfl
    | otherError d => intro _; rfl

/-- C9 witness: the invariant evaluated at the timeout and decode-error
outcomes. -/
theorem verify_valid_iff_200_and_scopes_empty_witness :
    (verify_github_token_api HttpOutcome.timeout).valid = false ∧
    (verify_github_token_api HttpOutcome.timeout).scopes = some [] :=
  ⟨by decide,
    (verify_valid_iff_200_and_scopes_empty HttpOutcome.timeout
      ToolHttpOutcome.decodeError).2.1 (by decide)⟩

/-- A concrete world for runs with an empty token: the HTTP request (never
made in this scenario) would time out, both LLM delegates succeed. -/
def envEmptyTokenCase : WorkflowEnv :=
  { httpOutcome := HttpOutcome.timeout, verifierToolError := none,
    analysisLLM := LLMOutcome.success "summary",
    remediationLLM := LLMOutcome.success "advice" }

/-- C2 counterexample: an empty token supplied to `run` is not answered with a
caller-visible input error before the pipeline — the run proceeds through the
classification pipeline: the analysis LLM delegate is invoked (an external
call), the routing sends the run to remediation, whose LLM delegate is invoked
as well, and the returned state carries their outputs. -/
theorem empty_token_enters_pipeline :
    (run envEmptyTokenCase "").analysisDelegateInvoked = true ∧
    (run envEmptyTokenCase "").remediationDelegateInvoked = true ∧
    (run envEmptyTokenCase "").finalState.analysis_message = some "summary" ∧
    (run envEmptyTokenCase "").finalState.remediation_suggestions = some "advice" := by
  decide

/-- C2 amended: `run` does not reject a missing/empty token before the VERIFY
step; the VERIFY node's own guard catches it, stores the input-error result
(`valid = false`, message "No token provided.", `status_code = 0`) without
issuing the GitHub API request, and the run then continues through the
classification pipeline — the analysis delegate is invoked and, the stored
result being invalid, the remediation delegate as well — before the state is
returned to the caller. -/
theorem empty_token_guarded_inside_verify_node (env : WorkflowEnv) :
    (run env "").githubApiCalled = false ∧
    (run env "").finalState.verification_result =
      some { valid := false, scopes := none, message := "No token provided.",
             status_code := 0 } ∧
    (run env "").analysisDelegateInvoked = true ∧
    (run env "").remediationDelegateInvoked = true := by
  obtain ⟨h1, h2, h3, h4, h5, h6⟩ := run_spec env ""
  refine ⟨by rw [h3]; rfl, by rw [h2]; rfl, h4, by rw [h5]; rfl⟩

/-- C2 witness: the amended claim evaluated at the concrete empty-token run. -/
theorem empty_token_guarded_inside_verify_node_witness :
    (run envEmptyTokenCase "").githubApiCalled = false :=
  (empty_token_guarded_inside_verify_node envEmptyTokenCase).1

/-- A concrete world in which the GitHub API answers 200 with two scopes and
both LLM delegates succeed. -/
def envValidRun : WorkflowEnv :=
  { httpOutcome := HttpOutcome.response 200 (some "repo, read:org") (BodyParse.parsed none)
    verifierToolError := none
    analysisLLM := LLMOutcome.success "summary"
    remediationLLM := LLMOutcome.success "advice" }

/-- C3 counterexample: on a run classified `valid = true` the graph routes from
ANALYZE straight to END, so `suggest_remediation_node` never executes and the
returned state's `remediation_suggestions` is `none` — not the fixed string
"Token is valid. No remediation needed." the claim asserts (that string is
produced only by the remediation node's short-circuit, which is never
reached). -/
theorem valid_run_leaves_remediation_unset :
    (run envValidRun "ghp_token").finalState.verification_result =
      some { valid := true, scopes := some ["repo", "read:org"],
             message := "Token is valid.", status_code := 200 } ∧
    (run envValidRun "ghp_token").finalState.remediation_suggestions = none ∧
    (run envValidRun "ghp_token").finalState.remediation_suggestions ≠
      some "Token is valid. No remediation needed." := by
  decide

/-- C3 amended: on every run classified `valid = true`, the Remediation
Advisor's delegate is never invoked and the returned state's
`remediation_suggestions` remains unset (`none`); the fixed string
"Token is valid. No remediation needed." is what `suggest_remediation_node`
would return on a valid result, but the conditional edge routes such runs to
END without executing that node. -/
theorem valid_run_skips_remediation_delegate (env : WorkflowEnv) (token : String)
    (h : (verifierOutput env token).valid = true) :
    (run env token).remediationDelegateInvoked = false ∧
    (run env token).finalState.remediation_suggestions = none ∧
    (∀ llm s, stateValid s = true →
      (suggest_remediation_node llm s).remediation_suggestions =
        some "Token is valid. No remediation needed.") := by
  obtain ⟨_, _, _, _, h5, h6⟩ := run_spec env token
  refine ⟨by rw [h5, h]; rfl, by rw [h6, if_pos h], ?_⟩
  intro llm s hs
  unfold suggest_remediation_node
  rw [if_pos hs]

/-- C3 witness: the amended claim at a concrete valid run. -/
theorem valid_run_skips_remediation_delegate_witness :
    (verifierOutput envValidRun "ghp_token").valid = true ∧
    (run envValidRun "ghp_token").remediationDelegateInvoked = false :=
  ⟨by decide,
    (valid_run_skips_remediation_delegate envValidRun "ghp_token" (by decide)).1⟩

/-- A concrete world in which the GitHub API answers 401 and the remediation
delegate succeeds but returns the empty string. -/
def envInvalidEmptyAdvice : WorkflowEnv :=
  { httpOutcome := HttpOutcome.response 401 none (BodyParse.parsed (some "Bad credentials"))
    verifierToolError := none
    analysisLLM := LLMOutcome.success "summary"
    remediationLLM := LLMOutcome.success "" }

/-- C5 counterexample: on an invalid run the remediation delegate is invoked
and its returned text is stored verbatim, so when the delegate returns the
empty string the returned state's `remediation_suggestions` is the empty
string — the code does not guarantee a non-empty string. -/
theorem invalid_run_can_yield_empty_suggestions :
    (run envInvalidEmptyAdvice "tok").remediationDelegateInvoked = true ∧
    (run envInvalidEmptyAdvice "tok").finalState.remediation_suggestions = some "" := by
  decide

/-- C5 amended: on every run classified `valid = false` the orchestrator routes
to the remediation step and the Remediation Advisor delegate is invoked; the
returned state's `remediation_suggestions` is set to the delegate's returned
text on success — hence non-empty exactly when the delegate's text is — and to
a non-empty error-embedding string when the delegate fails. -/
theorem invalid_run_invokes_remediation (env : WorkflowEnv) (token : String)
    (h : (verifierOutput env token).valid = false) :
    (run env token).remediationDelegateInvoked = true ∧
    (run env token).finalState.remediation_suggestions =
      some (match env.remediationLLM with
        | LLMOutcome.success text => text
        | LLMOutcome.failure e => "Error generating suggestions: " ++ e) ∧
    (∀ e, env.remediationLLM = LLMOutcome.failure e →
      (run env token).finalState.remediation_suggestions =
        some ("Error generating suggestions: " ++ e) ∧
      "Error generating suggestions: " ++ e ≠ "") := by
  obtain ⟨_, _, _, _, h5, h6⟩ := run_spec env token
  have h6' : (run env token).finalState.remediation_suggestions =
      some (match env.remediationLLM with
        | LLMOutcome.success text => text
        | LLMOutcome.failure e => "Error generating suggestions: " ++ e) := by
    rw [h6, if_neg (by simp [h])]
  refine ⟨by rw [h5, h]; rfl, h6', ?_⟩
  intro e he
  refine ⟨by rw [h6', he], ?_⟩
  intro hc
  have hd := congrArg String.data hc
  rw [String.data_append] at hd
  rcases List.append_eq_nil.mp hd with ⟨h1, -⟩
  exact absurd h1 (by decide)

/-- C5 witness: the amended claim at a concrete 401 run. -/
theorem invalid_run_invokes_remediation_witness :
    (verifierOutput envInvalidEmptyAdvice "tok").valid = false ∧
    (run envInvalidEmptyAdvice "tok").remediationDelegateInvoked = true :=
  ⟨by decide,
    (invalid_run_invokes_remediation envInvalidEmptyAdvice "tok" (by decide)).1⟩

/-- Spec-side scope parsing for the comparison in C4, following the claim's
words: the header split on commas, each entry trimmed, empty entries dropped.
To be diffed against `parseScopesApi`, which is taken from the source and
splits on the two-character separator ", ". -/
def specCommaSplitScopes (header : String) : List String :=
  ((pySplit header ",").map pyStrip).filter (fun s => s != "")

/-- C4 counterexample: on an HTTP 200 response whose `X-OAuth-Scopes` header
is "repo,read:org" — a comma not followed by a space — the code keeps the
single scope "repo,read:org", because the source splits on the two-character
separator ", ", not on commas as the claim describes. -/
theorem scopes_not_split_on_bare_comma :
    (verify_github_token_api
        (HttpOutcome.response 200 (some "repo,read:org") (BodyParse.parsed none))).scopes =
      some ["repo,read:org"] ∧
    specCommaSplitScopes "repo,read:org" = ["repo", "read:org"] ∧
    (verify_github_token_api
        (HttpOutcome.response 200 (some "repo,read:org") (BodyParse.parsed none))).scopes ≠
      some (specCommaSplitScopes "repo,read:org") := by
  decide

/-- C4 amended: for every token for which the API returns HTTP 200, the
verifier returns `valid = true`, `status_code = 200`, and `scopes` equal to
the `X-OAuth-Scopes` header split on the two-character separator ", "
(comma followed by a space) with each entry trimmed and empty entries
dropped; for the comma-space-separated header "repo, read:org" this yields
["repo", "read:org"] as in the claim's example. -/
theorem http200_scopes_from_header (sc : Option String) (b : BodyParse) :
    verify_github_token_api (HttpOutcome.response 200 sc b) =
      { valid := true, scopes := some (parseScopesApi sc),
        message := "Token is valid.", status_code := 200 } ∧
    parseScopesApi (some "repo, read:org") = ["repo", "read:org"] :=
  ⟨rfl, by decide⟩

/-- C4 witness: the amended claim evaluated at the claim's example header. -/
theorem http200_scopes_from_header_witness :
    verify_github_token_api
        (HttpOutcome.response 200 (some "repo, read:org") (BodyParse.parsed none)) =
      { valid := true, scopes := some (parseScopesApi (some "repo, read:org")),
        message := "Token is valid.", status_code := 200 } :=
  (http200_scopes_from_header (some "repo, read:org") (BodyParse.parsed none)).1

/-- C6 counterexample: `analyze_verification_result` in `app.py` wraps no
try/except around its delegate call, so a delegate failure propagates out of
the node (modelled as `Except.error`) instead of being embedded into
`analysis_message` — at this input the analyzer does abort the workflow. -/
theorem app_analyzer_propagates_delegate_error :
    analyze_verification_result (LLMOutcome.failure "LLM service unavailable")
        { token := "tok", verification_result := none, analysis_message := "",
          remediation_suggestions := "" } =
      Except.error "LLM service unavailable" := rfl

/-- C6 amended: the Result Analyzer of the main workflow
(`analyze_result_node` in `graph_nodes.py`) never aborts — for every
`VerificationResult` in the state and every delegate outcome it returns a
state, storing the delegate's text on success and an error-embedding string
in `analysis_message` on failure; the near-duplicate analyzer in `app.py`
(`analyze_verification_result`) lacks this handling and propagates the
delegate's exception. -/
theorem analyze_result_node_embeds_delegate_error (llm : LLMOutcome)
    (s : GithubTokenVerificationState) :
    (analyze_result_node llm s).analysis_message =
      some (match llm with
        | LLMOutcome.success text => text
        | LLMOutcome.failure e => "Error during analysis: " ++ e) := by
  cases llm <;> rfl

/-- C6 witness: the graph-nodes analyzer at a concrete failing delegate. -/
theorem analyze_result_node_embeds_delegate_error_witness :
    (analyze_result_node (LLMOutcome.failure "LLM down")
        { token := "tok", verification_result := none, analysis_message := none,
          remediation_suggestions := none }).analysis_message =
      some ("Error during analysis: " ++ "LLM down") :=
  analyze_result_node_embeds_delegate_error (LLMOutcome.failure "LLM down")
    { token := "tok", verification_result := none, analysis_message := none,
      remediation_suggestions := none }

/-- C7 witness: the `verify.py` sentinel at a concrete timed-out request. -/
theorem timeout_yields_sentinel_minus_one_witness :
    verify_github_token_tool (ToolHttpOutcome.requestError "read timed out") =
      { valid := false, scopes := some [],
        message := "Network or API request error: " ++ "read timed out",
        status_code := -1 } :=
  timeout_yields_sentinel_minus_one.2 "read timed out"

/-- C8: in every workflow run the state's `token` is set once at construction
and never mutated — each node returns it unchanged and the final state carries
the caller's token — and `verification_result` is written exclusively by the
Token Verifier node: the analyzer and remediation nodes leave both fields
unchanged, and the final state's `verification_result` is exactly what the
verifier node stored. -/
theorem token_immutable_and_verifier_owns_result (env : WorkflowEnv)
    (llm : LLMOutcome) (s : GithubTokenVerificationState) (token : String) :
    (call_github_verifier_node env s).token = s.token ∧
    (analyze_result_node llm s).token = s.token ∧
    (analyze_result_node llm s).verification_result = s.verification_result ∧
    (suggest_remediation_node llm s).token = s.token ∧
    (suggest_remediation_node llm s).verification_result = s.verification_result ∧
    (run env token).finalState.token = token ∧
    (run env token).finalState.verification_result = some (verifierOutput env token) := by
  obtain ⟨r1, r2, -, -, -, -⟩ := run_spec env token
  exact ⟨(call_github_verifier_node_spec env s).2.1,
    (analyze_result_node_frame llm s).1, (analyze_result_node_frame llm s).2.1,
    (suggest_remediation_node_frame llm s).1, (suggest_remediation_node_frame llm s).2.1,
    r1, r2⟩

/-- C10: the verifier node, given a state with a missing/empty token, stores
exactly `valid = false`, message "No token provided.", `status_code = 0`, with
the `scopes` key omitted (`scopes = none`), and the run makes no GitHub API
call; the status 0 lies below the HTTP status space (1xx-5xx) yet is not
negative, so it is outside the documented negative-sentinel space
{-1, -2, -3, -4, -99, -100} as well. -/
theorem empty_token_sentinel_status_zero (env : WorkflowEnv)
    (vr : Option VerificationResult) (am rs : Option String) :
    (call_github_verifier_node env
        { token := "", verification_result := vr, analysis_message := am,
          remediation_suggestions := rs }).verification_result =
      some { valid := false, scopes := none, message := "No token provided.",
             status_code := 0 } ∧
    (run env "").githubApiCalled = false ∧
    ((0 : Int) < 100 ∧ ¬((0 : Int) < 0) ∧
      (0 : Int) ∉ ([-1, -2, -3, -4, -99, -100] : List Int)) := by
  refine ⟨rfl, ?_, by decide⟩
  obtain ⟨-, -, h3, -, -, -⟩ := run_spec env ""
  rw [h3]; rfl

/-- C8 witness: the frame conditions at a concrete run. -/
theorem token_immutable_and_verifier_owns_result_witness :
    (run { httpOutcome := HttpOutcome.timeout, verifierToolError := none,
           analysisLLM := LLMOutcome.success "s",
           remediationLLM := LLMOutcome.success "a" } "tok").finalState.token = "tok" :=
  (token_immutable_and_verifier_owns_result
    { httpOutcome := HttpOutcome.timeout, verifierToolError := none,
      analysisLLM := LLMOutcome.success "s", remediationLLM := LLMOutcome.success "a" }
    (LLMOutcome.success "s")
    { token := "tok", verification_result := none, analysis_message := none,
      remediation_suggestions := none } "tok").2.2.2.2.2.1

/-- C10 witness: the guard result and suppressed API call at a concrete run. -/
theorem empty_token_sentinel_status_zero_witness :
    (run { httpOutcome := HttpOutcome.timeout, verifierToolError := none,
           analysisLLM := LLMOutcome.success "s",
           remediationLLM := LLMOutcome.success "a" } "").githubApiCalled = false :=
  (empty_token_sentinel_status_zero
    { httpOutcome := HttpOutcome.timeout, verifierToolError := none,
      analysisLLM := LLMOutcome.success "s", remediationLLM := LLMOutcome.success "a" }
    none none none).2.1

end Assetze
